import Mathlib

/-!
Verification development for the rural-education-platform repository.

This file gives a shallow embedding of the points/leveling engine, the
progress tracker, the achievement evaluator, the game score recorder and
the client-side offline sync agent, translated from the JavaScript source
(`src/backend/routes/students.js`, `src/backend/routes/games.js`,
`src/backend/models/Achievement.js`, the `User` model, and the client
`APIClient` / `OfflineManager` code), and proves or refutes the stated
properties of that code.

Conventions of the embedding:
* SQLite rows become Lean structures; the relevant tables become lists.
* Calendar dates (`DATE` columns, `toISOString().split('T')[0]`) are
  modelled as integers counting days, so that "yesterday" is `today - 1`.
* JavaScript numbers holding integers become `Int`/`Nat`; the REAL column
  `completion_percentage` becomes `ℚ` and `Math.floor` becomes `Int.floor`
  (exact for every value the claims touch).
* Fallible store access is modelled with `Except String`.
-/

/-! ## Points & Leveling Engine (`students.js` `updateUserPoints`,
`User.initializeUserPoints`) -/

/-- A row of the `user_points` table: total points, current level, the
per-subject points JSON object (as an association list), the daily streak
and the last activity date (`none` models SQL NULL). -/
structure UserPoints where
  total_points : Int
  current_level : Int
  subject_points : List (String × Int)
  daily_streak : Int
  last_activity_date : Option Int
deriving DecidableEq, Repr

/-- `User.initializeUserPoints`: `INSERT OR IGNORE INTO user_points ...
VALUES (?, 0, 1, '{}', 0, date('now'))` — a fresh account has 0 points,
level 1, empty subject map, streak 0 and last activity set to today. -/
def initUserPoints (today : Int) : UserPoints :=
  { total_points := 0
    current_level := 1
    subject_points := []
    daily_streak := 0
    last_activity_date := some today }

/-- `subjectPoints[subject] = (subjectPoints[subject] || 0) + pointsToAdd`
on the parsed JSON object. -/
def subjectAdd : List (String × Int) → String → Int → List (String × Int)
  | [], subject, delta => [(subject, delta)]
  | (k, v) :: rest, subject, delta =>
      if k = subject then (k, v + delta) :: rest
      else (k, v) :: subjectAdd rest subject delta

/-- The body of `updateUserPoints` (students.js:309-357) run against an
existing `user_points` row `cur`: add the delta, recompute the level as
`Math.floor(newTotalPoints / 100) + 1`, bump the subject bucket, and update
the daily streak by comparing `last_activity_date` with today and
yesterday. -/
def updateUserPointsRow (cur : UserPoints) (pointsToAdd : Int) (subject : String)
    (today : Int) : UserPoints :=
  let newTotalPoints := cur.total_points + pointsToAdd
  let newLevel := Int.fdiv newTotalPoints 100 + 1
  let newSubjectPoints := subjectAdd cur.subject_points subject pointsToAdd
  let newStreak :=
    if cur.last_activity_date = some today then cur.daily_streak
    else if cur.last_activity_date = some (today - 1) then cur.daily_streak + 1
    else 1
  { total_points := newTotalPoints
    current_level := newLevel
    subject_points := newSubjectPoints
    daily_streak := newStreak
    last_activity_date := some today }

/-- `updateUserPoints` (students.js:289-363): if no `user_points` row
exists, initialize one (which sets `last_activity_date` to today and the
streak to 0) and retry; otherwise apply `updateUserPointsRow`. -/
def updateUserPoints (row : Option UserPoints) (pointsToAdd : Int) (subject : String)
    (today : Int) : UserPoints :=
  match row with
  | none => updateUserPointsRow (initUserPoints today) pointsToAdd subject today
  | some cur => updateUserPointsRow cur pointsToAdd subject today

/-- Total points of an optional `user_points` row (a missing row holds no
points). -/
def userTotalOpt : Option UserPoints → Int
  | none => 0
  | some r => r.total_points

/-! ## Game Score Recorder (`games.js` `POST /:subject/:gameId/score`) -/

/-- The four subjects accepted by the routes. -/
def validSubjects : List String := ["physics", "chemistry", "math", "biology"]

/-- games.js:232-235: `Math.floor(score / 10)` base points, `+20` when
`score >= 90`, `+10` when `score >= 70` (both fire for a score ≥ 90),
`+5` when `0 < time_taken < 300`. -/
def gamePointsEarned (score time_taken : Nat) : Nat :=
  let base := score / 10
  let p1 := if 90 ≤ score then base + 20 else base
  let p2 := if 70 ≤ score then p1 + 10 else p1
  if 0 < time_taken ∧ time_taken < 300 then p2 + 5 else p2

/-- A row of the `game_scores` table. -/
structure GameScoreEntry where
  user_id : Nat
  game_name : String
  subject : String
  score : Nat
  level_completed : Nat
  time_taken : Nat
  points_earned : Nat
deriving DecidableEq, Repr

/-- The server-side tables touched by the score submission route. -/
structure ServerState where
  game_scores : List GameScoreEntry
  user_points : List (Nat × UserPoints)
  user_achievements : List (Nat × Nat)
deriving DecidableEq, Repr

/-- The JSON body answered by `POST /games/:subject/:gameId/score`. -/
structure ScoreResponse where
  score : Nat
  pointsEarned : Nat
  isNewRecord : Bool
  bestScore : Nat
  totalPlays : Nat
deriving DecidableEq, Repr

/-- Total points recorded for user `u` in the `user_points` table. -/
def userTotal (rows : List (Nat × UserPoints)) (u : Nat) : Int :=
  match rows.find? (fun r => r.1 = u) with
  | none => 0
  | some r => r.2.total_points

/-- The score submission handler (games.js:213-257) after body validation:
reject an unknown subject; compute `pointsEarned`; append one
`game_scores` row; re-read the user's scores for this game and report the
best of them. No other table is touched: the handler neither calls
`updateUserPoints` nor `Achievement.checkAndAwardAchievements`. -/
def submitGameScore (st : ServerState) (userId : Nat) (subject gameId : String)
    (score level_completed time_taken : Nat) : Option (ScoreResponse × ServerState) :=
  if subject ∈ validSubjects then
    let pointsEarned := gamePointsEarned score time_taken
    let entry : GameScoreEntry :=
      { user_id := userId, game_name := gameId, subject := subject, score := score
        level_completed := level_completed, time_taken := time_taken
        points_earned := pointsEarned }
    let scores := st.game_scores ++ [entry]
    let userScores := scores.filter (fun e => e.user_id = userId ∧ e.game_name = gameId)
    let bestScore := (userScores.map (fun e => e.score)).foldl max 0
    some ({ score := score
            pointsEarned := pointsEarned
            isNewRecord := score = bestScore
            bestScore := bestScore
            totalPlays := userScores.length },
          { st with game_scores := scores })
  else none

/-! ## Claim C1: level invariant -/

/-- Claim C1: after a point award applied by `updateUserPoints` (whether or
not a row existed before) and after `initializeUserPoints`, the stored
`current_level` equals `floor(total_points / 100) + 1`, for non-negative
totals. -/
theorem level_invariant (row : Option UserPoints) (delta : Int) (subject : String)
    (today : Int)
    (hnn : 0 ≤ (updateUserPoints row delta subject today).total_points) :
    (updateUserPoints row delta subject today).current_level
        = Int.fdiv (updateUserPoints row delta subject today).total_points 100 + 1
      ∧ (initUserPoints today).current_level
        = Int.fdiv (initUserPoints today).total_points 100 + 1 := by
  refine ⟨?_, rfl⟩
  cases row <;> rfl

/-- Witness for C1 at a concrete account: a row with 230 points receiving
25 points lands on level `floor(255/100)+1 = 3`. -/
theorem level_invariant_witness :
    (0 : Int) ≤ (updateUserPoints
        (some { total_points := 230, current_level := 3, subject_points := []
                daily_streak := 2, last_activity_date := some 10 }) 25 "math" 11).total_points
      ∧ ((updateUserPoints
          (some { total_points := 230, current_level := 3, subject_points := []
                  daily_streak := 2, last_activity_date := some 10 }) 25 "math" 11).current_level
          = Int.fdiv (updateUserPoints
              (some { total_points := 230, current_level := 3, subject_points := []
                      daily_streak := 2, last_activity_date := some 10 }) 25 "math" 11).total_points 100 + 1
        ∧ (initUserPoints 11).current_level
          = Int.fdiv (initUserPoints 11).total_points 100 + 1) :=
  ⟨by decide,
   level_invariant
     (some { total_points := 230, current_level := 3, subject_points := []
             daily_streak := 2, last_activity_date := some 10 }) 25 "math" 11 (by decide)⟩

/-! ## Claim C4: points for score 95, time 120 -/

/-- Counterexample to claim C4: a valid submission with `score = 95`,
`time_taken = 120` returns `pointsEarned = 44`, not 34 — the `score >= 90`
and `score >= 70` bonuses both fire (games.js:233-234), which the claimed
sum `9 + 20 + 5` omits. -/
theorem score95_not_34 :
    (submitGameScore { game_scores := [], user_points := [], user_achievements := [] }
        1 "physics" "wave-simulator" 95 1 120).map (fun r => r.1.pointsEarned)
      ≠ some 34 := by decide

/-- Claim C4 amended: for every server state, user and game, a valid
submission with `score = 95` and `time_taken = 120` returns
`pointsEarned = 44 = floor(95/10) + 20 + 10 + 5`. -/
theorem score95_earns_44 (st : ServerState) (userId : Nat) (subject gameId : String)
    (level_completed : Nat) (hs : subject ∈ validSubjects) :
    (submitGameScore st userId subject gameId 95 level_completed 120).map
        (fun r => r.1.pointsEarned)
      = some 44 := by
  simp [submitGameScore, hs, gamePointsEarned]

/-- Witness for the amended C4 at a concrete submission. -/
theorem score95_earns_44_witness :
    "physics" ∈ validSubjects
      ∧ (submitGameScore { game_scores := [], user_points := [], user_achievements := [] }
            7 "physics" "circuit-builder" 95 2 120).map (fun r => r.1.pointsEarned)
          = some 44 :=
  ⟨by decide,
   score95_earns_44 { game_scores := [], user_points := [], user_achievements := [] }
     7 "physics" "circuit-builder" 2 (by decide)⟩

/-! ## Claim C2: game score submission and the points engine -/

/-- Counterexample to claim C2: a successful score submission (score 95,
time 120, `pointsEarned = 44 > 0`) leaves the `user_points` row of the
submitting student untouched (total stays 50, not 50 + 44) and grants no
achievement — games.js:213-257 never invokes `updateUserPoints` or
`Achievement.checkAndAwardAchievements`. -/
theorem game_score_leaves_points_unchanged :
    (submitGameScore
        { game_scores := []
          user_points := [(1, { total_points := 50, current_level := 1
                                subject_points := [("physics", 50)], daily_streak := 1
                                last_activity_date := some 10 })]
          user_achievements := [] }
        1 "physics" "wave-simulator" 95 1 120).map
        (fun r => (r.1.pointsEarned, userTotal r.2.user_points 1,
                   r.2.user_achievements.length))
      = some (44, 50, 0) := by decide

/-- Claim C2 amended: a valid score submission appends exactly one
`game_scores` row carrying `points_earned`, and leaves both `user_points`
and `user_achievements` exactly as they were: the Points & Leveling
Engine is not invoked and the Achievement Evaluator does not run, so
`total_points` is unchanged by a game score submission. -/
theorem game_score_only_appends (st : ServerState) (userId : Nat)
    (subject gameId : String) (score level_completed time_taken : Nat)
    (hs : subject ∈ validSubjects) :
    (submitGameScore st userId subject gameId score level_completed time_taken).map
        (fun r => r.2.user_points) = some st.user_points
      ∧ (submitGameScore st userId subject gameId score level_completed time_taken).map
          (fun r => r.2.user_achievements) = some st.user_achievements
      ∧ (submitGameScore st userId subject gameId score level_completed time_taken).map
          (fun r => r.2.game_scores)
        = some (st.game_scores ++
            [{ user_id := userId, game_name := gameId, subject := subject, score := score
               level_completed := level_completed, time_taken := time_taken
               points_earned := gamePointsEarned score time_taken }])
      ∧ (submitGameScore st userId subject gameId score level_completed time_taken).map
          (fun r => r.1.pointsEarned) = some (gamePointsEarned score time_taken) := by
  refine ⟨?_, ?_, ?_, ?_⟩ <;> simp [submitGameScore, hs]

/-- Witness for the amended C2 at a concrete state and submission. -/
theorem game_score_only_appends_witness :
    "math" ∈ validSubjects
      ∧ ((submitGameScore { game_scores := [], user_points := [], user_achievements := [] }
              3 "math" "number-puzzles" 80 1 0).map (fun r => r.2.user_points) = some []
        ∧ (submitGameScore { game_scores := [], user_points := [], user_achievements := [] }
              3 "math" "number-puzzles" 80 1 0).map (fun r => r.2.user_achievements)
            = some []
        ∧ (submitGameScore { game_scores := [], user_points := [], user_achievements := [] }
              3 "math" "number-puzzles" 80 1 0).map (fun r => r.2.game_scores)
            = some ([] ++
                [{ user_id := 3, game_name := "number-puzzles", subject := "math"
                   score := 80, level_completed := 1, time_taken := 0
                   points_earned := gamePointsEarned 80 0 }])
        ∧ (submitGameScore { game_scores := [], user_points := [], user_achievements := [] }
              3 "math" "number-puzzles" 80 1 0).map (fun r => r.1.pointsEarned)
            = some (gamePointsEarned 80 0)) :=
  ⟨by decide,
   game_score_only_appends
     { game_scores := [], user_points := [], user_achievements := [] }
     3 "math" "number-puzzles" 80 1 0 (by decide)⟩

/-! ## Claim C6: daily streak policy -/

/-- Counterexample to claim C6: on first-ever activity the account is
created by `initializeUserPoints` with `last_activity_date = today` and
`daily_streak = 0`, so the award that follows takes the "same day" branch
and leaves the streak at 0 — the streak is not reset to 1. -/
theorem first_activity_streak_zero :
    (updateUserPoints none 10 "math" 5).daily_streak = 0
      ∧ (updateUserPoints none 10 "math" 5).daily_streak ≠ 1 := by decide

/-- Claim C6 amended: when a point award is applied to an existing
account, the streak is unchanged if `last_activity_date` is today,
incremented if it is yesterday, and reset to 1 otherwise (gap of at least
2 days, or a NULL date); `last_activity_date` is then set to today. On
first-ever activity (no row), the account is initialized with streak 0 and
`last_activity_date = today`, and the award leaves the streak at 0. -/
theorem streak_policy (cur : UserPoints) (delta : Int) (subject : String) (today : Int) :
    (updateUserPointsRow cur delta subject today).daily_streak
        = (if cur.last_activity_date = some today then cur.daily_streak
           else if cur.last_activity_date = some (today - 1) then cur.daily_streak + 1
           else 1)
      ∧ (updateUserPointsRow cur delta subject today).last_activity_date = some today
      ∧ (updateUserPoints none delta subject today).daily_streak = 0
      ∧ (updateUserPoints none delta subject today).last_activity_date = some today := by
  refine ⟨rfl, rfl, ?_, rfl⟩
  simp [updateUserPoints, updateUserPointsRow, initUserPoints]

/-! ## Progress Tracker (`Progress.updateProgress`) -/

/-- A row of the `student_progress` table for one (student, subject,
topic): completion percentage (REAL), best score, cumulative time and
attempt count. -/
structure ProgressRecord where
  completion_percentage : ℚ
  score : Nat
  time_spent : Nat
  attempts : Nat
deriving DecidableEq, Repr

/-- The object `Progress.updateProgress` resolves with: the created/updated
flag and the resulting completion, score and attempts. -/
structure ProgressResult where
  created : Bool
  updated : Bool
  completion_percentage : ℚ
  score : Nat
  attempts : Nat
deriving DecidableEq, Repr

/-- `Progress.updateProgress` (Progress model, lines 258-325): if a row
exists for the triple, increment attempts, add the time, keep the best
score and best completion (`Math.max(existing, incoming)`); otherwise
insert a fresh row with attempts = 1. Returns the resolved result together
with the stored row. -/
def updateProgress (existing : Option ProgressRecord) (completionPercentage : ℚ)
    (score timeSpent : Nat) : ProgressResult × ProgressRecord :=
  match existing with
  | some p =>
      let newAttempts := p.attempts + 1
      let newTimeSpent := p.time_spent + timeSpent
      let newScore := max p.score score
      let newCompletion := max p.completion_percentage completionPercentage
      ({ created := false, updated := true, completion_percentage := newCompletion
         score := newScore, attempts := newAttempts },
       { completion_percentage := newCompletion, score := newScore
         time_spent := newTimeSpent, attempts := newAttempts })
  | none =>
      ({ created := true, updated := false, completion_percentage := completionPercentage
         score := score, attempts := 1 },
       { completion_percentage := completionPercentage, score := score
         time_spent := timeSpent, attempts := 1 })

/-! ## Claim C5: best-of semantics and attempt counting -/

/-- Claim C5: two `updateProgress` calls on a fresh triple with scores
`s1 < s2` store score `s2` in either order; the stored completion is the
max of the two completions in either order; attempts end at 2; and from
any existing row a call increments attempts by exactly 1, whatever the
incoming values are. -/
theorem progress_best_of (c1 c2 : ℚ) (s1 s2 t1 t2 : Nat) (h12 : s1 < s2) :
    ((updateProgress (some (updateProgress none c1 s1 t1).2) c2 s2 t2).2.score = s2
        ∧ (updateProgress (some (updateProgress none c2 s2 t2).2) c1 s1 t1).2.score = s2)
      ∧ ((updateProgress (some (updateProgress none c1 s1 t1).2) c2 s2 t2).2.completion_percentage
            = max c1 c2
        ∧ (updateProgress (some (updateProgress none c2 s2 t2).2) c1 s1 t1).2.completion_percentage
            = max c1 c2)
      ∧ ((updateProgress (some (updateProgress none c1 s1 t1).2) c2 s2 t2).2.attempts = 2
        ∧ (updateProgress (some (updateProgress none c2 s2 t2).2) c1 s1 t1).2.attempts = 2)
      ∧ ∀ (p : ProgressRecord) (c : ℚ) (s t : Nat),
          (updateProgress (some p) c s t).2.attempts = p.attempts + 1 := by
  refine ⟨⟨?_, ?_⟩, ⟨rfl, ?_⟩, ⟨rfl, rfl⟩, fun p c s t => rfl⟩
  · exact max_eq_right (Nat.le_of_lt h12)
  · exact max_eq_left (Nat.le_of_lt h12)
  · exact max_comm c2 c1

/-- Witness for C5 at concrete scores 40 < 70 and completions 30, 80. -/
theorem progress_best_of_witness :
    (40 : Nat) < 70
      ∧ (((updateProgress (some (updateProgress none 30 40 5).2) 80 70 6).2.score = 70
          ∧ (updateProgress (some (updateProgress none 80 70 6).2) 30 40 5).2.score = 70)
        ∧ ((updateProgress (some (updateProgress none 30 40 5).2) 80 70 6).2.completion_percentage
              = max 30 80
          ∧ (updateProgress (some (updateProgress none 80 70 6).2) 30 40 5).2.completion_percentage
              = max 30 80)
        ∧ ((updateProgress (some (updateProgress none 30 40 5).2) 80 70 6).2.attempts = 2
          ∧ (updateProgress (some (updateProgress none 80 70 6).2) 30 40 5).2.attempts = 2)
        ∧ ∀ (p : ProgressRecord) (c : ℚ) (s t : Nat),
            (updateProgress (some p) c s t).2.attempts = p.attempts + 1) :=
  ⟨by decide, progress_best_of 30 80 40 70 5 6 (by decide)⟩

/-! ## Achievement Evaluator (`Achievement.checkAndAwardAchievements`) -/

/-- A row of the `achievements` catalog table. -/
structure AchievementRow where
  id : Nat
  name : String
  points_required : Int
deriving DecidableEq, Repr

/-- The stats snapshot assembled by `Achievement.getUserStats`: the
`user_points` row, aggregate progress counters, game counters and the
per-subject completed-topic counts. -/
structure UserStats where
  total_points : Int
  daily_streak : Int
  completed_activities : Nat
  high_score_count : Nat
  unique_games_played : Nat
  subjectCompleted : List (String × Nat)
deriving DecidableEq, Repr

/-- Completed-topic count for one subject in the snapshot (`none` when the
student has no rows for that subject, as `subjectProgress.find` would
return `undefined`). -/
def subjectCompletedTopics (stats : UserStats) (subject : String) : Option Nat :=
  (stats.subjectCompleted.find? (fun s => s.1 = subject)).map (fun s => s.2)

/-- `Achievement.checkAchievementCriteria`: the named fixed rules,
dispatched on the achievement's name, with the generic
`total_points >= points_required` fallback. -/
def checkAchievementCriteria (a : AchievementRow) (stats : UserStats) : Bool :=
  if a.name = "First Steps" then 1 ≤ stats.completed_activities
  else if a.name = "Game Master" then 5 ≤ stats.unique_games_played
  else if a.name = "Physics Explorer" then
    match subjectCompletedTopics stats "physics" with
    | some n => 10 ≤ n
    | none => false
  else if a.name = "Chemistry Wizard" then
    match subjectCompletedTopics stats "chemistry" with
    | some n => 10 ≤ n
    | none => false
  else if a.name = "Math Genius" then
    match subjectCompletedTopics stats "math" with
    | some n => 20 ≤ n
    | none => false
  else if a.name = "Biology Expert" then
    match subjectCompletedTopics stats "biology" with
    | some n => 10 ≤ n
    | none => false
  else if a.name = "Daily Learner" then 7 ≤ stats.daily_streak
  else if a.name = "High Achiever" then 10 ≤ stats.high_score_count
  else a.points_required ≤ stats.total_points

/-- The `for` loop of `checkAndAwardAchievements`: skip achievements
already earned, evaluate the criteria against the snapshot, and for each
satisfied one run the (fallible) `INSERT OR IGNORE` and collect it. An
insert error aborts the loop and propagates. -/
def checkLoop (earnedIds : List Nat) (stats : UserStats) (catalog : List AchievementRow)
    (awardRes : Nat → Except String Bool) : Except String (List AchievementRow) :=
  catalog.foldlM
    (fun acc a =>
      if a.id ∈ earnedIds then pure acc
      else if checkAchievementCriteria a stats then do
        let _ ← awardRes a.id
        pure (acc ++ [a])
      else pure acc)
    []

/-- The body of the `try` block of `checkAndAwardAchievements`
(Achievement.js:44-69): read the earned achievements, the stats snapshot
and the catalog (each read may fail), then run the awarding loop. -/
def checkAndAwardE (earnedRes : Except String (List AchievementRow))
    (statsRes : Except String UserStats)
    (catalogRes : Except String (List AchievementRow))
    (awardRes : Nat → Except String Bool) : Except String (List AchievementRow) := do
  let earned ← earnedRes
  let stats ← statsRes
  let catalog ← catalogRes
  checkLoop (earned.map (fun a => a.id)) stats catalog awardRes

/-- `Achievement.checkAndAwardAchievements`: the `catch` clause swallows
every store error and resolves with the empty list. -/
def checkAndAwardAchievements (earnedRes : Except String (List AchievementRow))
    (statsRes : Except String UserStats)
    (catalogRes : Except String (List AchievementRow))
    (awardRes : Nat → Except String Bool) : List AchievementRow :=
  match checkAndAwardE earnedRes statsRes catalogRes awardRes with
  | .ok l => l
  | .error _ => []

/-! ## `POST /students/progress` (students.js:152-209) -/

/-- students.js:183-189: first-time completion earns
`Math.floor(completion/10)` plus a score bonus of 20/10/5; a repeat update
earns `Math.floor((completion - 50) / 10) * 2`, which may be negative. -/
def progressPointsEarned (res : ProgressResult) (completion : ℚ) (score : Nat) : Int :=
  if res.created then
    ⌊completion / 10⌋ + (if 80 ≤ score then 20 else if 60 ≤ score then 10 else 5)
  else if res.updated then
    ⌊(completion - 50) / 10⌋ * 2
  else 0

/-- The JSON body answered by `POST /students/progress`. -/
structure ProgressResponse where
  message : String
  pointsEarned : Int
  newAchievements : List AchievementRow
deriving DecidableEq, Repr

/-- The progress route handler after validation: update the progress row,
compute the points delta, apply it through `updateUserPoints` only when it
is strictly positive (students.js:192-194), run the achievement check, and
answer with a success message. Returns the response, the stored progress
row and the resulting `user_points` row. -/
def postProgress (existing : Option ProgressRecord) (userRow : Option UserPoints)
    (subject : String) (today : Int) (completion : ℚ) (score timeSpent : Nat)
    (earnedRes : Except String (List AchievementRow))
    (statsRes : Except String UserStats)
    (catalogRes : Except String (List AchievementRow))
    (awardRes : Nat → Except String Bool) :
    ProgressResponse × ProgressRecord × Option UserPoints :=
  let pr := updateProgress existing completion score timeSpent
  let pointsEarned := progressPointsEarned pr.1 completion score
  let userRow2 :=
    if 0 < pointsEarned then some (updateUserPoints userRow pointsEarned subject today)
    else userRow
  let newAchievements := checkAndAwardAchievements earnedRes statsRes catalogRes awardRes
  ({ message := "Progress updated successfully"
     pointsEarned := pointsEarned
     newAchievements := newAchievements },
   pr.2, userRow2)

/-! ## Claim C3: negative repeat deltas are not applied -/

/-- Counterexample to claim C3: a repeat update with completion 30 (< 50)
computes `pointsEarned = floor((30-50)/10)*2 = -4`, yet the student's
`user_points` row is untouched (total stays 50): students.js:192 guards
the award with `if (pointsEarned > 0)`, so the delta is not applied
unconditionally and the total does not decrease. -/
theorem negative_delta_not_applied :
    (postProgress
        (some { completion_percentage := 60, score := 70, time_spent := 100, attempts := 1 })
        (some { total_points := 50, current_level := 1, subject_points := [("math", 50)]
                daily_streak := 1, last_activity_date := some 10 })
        "math" 11 30 0 10 (.ok []) (.ok { total_points := 50, daily_streak := 1
                                          completed_activities := 0, high_score_count := 0
                                          unique_games_played := 0, subjectCompleted := [] })
        (.ok []) (fun _ => .ok true)).1.pointsEarned = -4
      ∧ (postProgress
          (some { completion_percentage := 60, score := 70, time_spent := 100, attempts := 1 })
          (some { total_points := 50, current_level := 1, subject_points := [("math", 50)]
                  daily_streak := 1, last_activity_date := some 10 })
          "math" 11 30 0 10 (.ok []) (.ok { total_points := 50, daily_streak := 1
                                            completed_activities := 0, high_score_count := 0
                                            unique_games_played := 0, subjectCompleted := [] })
          (.ok []) (fun _ => .ok true)).2.2
        = some { total_points := 50, current_level := 1, subject_points := [("math", 50)]
                 daily_streak := 1, last_activity_date := some 10 } := by
  have hfloor : (⌊(((30 : ℚ) - 50) / 10)⌋ : ℤ) = -2 := by norm_num
  constructor <;>
    simp [postProgress, updateProgress, progressPointsEarned, hfloor,
      checkAndAwardAchievements, checkAndAwardE, checkLoop]

/-- Claim C3 amended: the repeat-update delta is computed but applied only
when strictly positive; the student's total points after `POST /progress`
equal the old total plus `max(pointsEarned, 0)`, and in particular never
decrease. -/
theorem progress_total_monotone (existing : Option ProgressRecord)
    (userRow : Option UserPoints) (subject : String) (today : Int) (completion : ℚ)
    (score timeSpent : Nat) (earnedRes : Except String (List AchievementRow))
    (statsRes : Except String UserStats) (catalogRes : Except String (List AchievementRow))
    (awardRes : Nat → Except String Bool) :
    userTotalOpt (postProgress existing userRow subject today completion score timeSpent
          earnedRes statsRes catalogRes awardRes).2.2
        = userTotalOpt userRow
          + max (postProgress existing userRow subject today completion score timeSpent
              earnedRes statsRes catalogRes awardRes).1.pointsEarned 0
      ∧ userTotalOpt userRow
        ≤ userTotalOpt (postProgress existing userRow subject today completion score timeSpent
            earnedRes statsRes catalogRes awardRes).2.2 := by
  have key : ∀ (r : Option UserPoints) (d : Int) (s : String) (t : Int),
      (updateUserPoints r d s t).total_points = userTotalOpt r + d := by
    intro r d s t
    cases r <;> simp [updateUserPoints, updateUserPointsRow, initUserPoints, userTotalOpt]
  set p := (postProgress existing userRow subject today completion score timeSpent
      earnedRes statsRes catalogRes awardRes).1.pointsEarned with hp
  have hmain : userTotalOpt (postProgress existing userRow subject today completion score
      timeSpent earnedRes statsRes catalogRes awardRes).2.2 = userTotalOpt userRow + max p 0 := by
    by_cases hpos : 0 < p
    · have hmax : max p 0 = p := max_eq_left (le_of_lt hpos)
      simp only [postProgress] at hp ⊢
      simp only [← hp] at *
      rw [if_pos hpos, hmax]
      simp [userTotalOpt, key]
    · have hmax : max p 0 = 0 := max_eq_right (not_lt.mp hpos)
      simp only [postProgress] at hp ⊢
      simp only [← hp] at *
      rw [if_neg hpos, hmax, add_zero]
  exact ⟨hmain, by rw [hmain]; exact le_add_of_nonneg_right (le_max_right p 0)⟩

/-! ## Claim C10: the achievement check never propagates a failure -/

/-- Claim C10: whenever the body of `checkAndAwardAchievements` fails (a
failing read of the earned list, the stats snapshot or the catalog, or a
failing grant insert), the function returns the empty list, and the
progress-update response still carries the success message with
`newAchievements = []` — exactly the response produced when the catalog is
empty, so the caller cannot tell a failed check from "no new
achievements". -/
theorem achievement_check_swallows_errors (existing : Option ProgressRecord)
    (userRow : Option UserPoints) (subject : String) (today : Int) (completion : ℚ)
    (score timeSpent : Nat) (earnedRes : Except String (List AchievementRow))
    (statsRes : Except String UserStats) (catalogRes : Except String (List AchievementRow))
    (awardRes : Nat → Except String Bool) (e : String)
    (hfail : checkAndAwardE earnedRes statsRes catalogRes awardRes = .error e) :
    checkAndAwardAchievements earnedRes statsRes catalogRes awardRes = []
      ∧ (postProgress existing userRow subject today completion score timeSpent
          earnedRes statsRes catalogRes awardRes).1
        = (postProgress existing userRow subject today completion score timeSpent
            (.ok []) statsRes (.ok []) awardRes).1 := by
  have hempty : checkAndAwardAchievements earnedRes statsRes catalogRes awardRes = [] := by
    simp [checkAndAwardAchievements, hfail]
  have hok : ∀ (s : Except String UserStats),
      checkAndAwardAchievements (.ok []) s (.ok []) awardRes = [] := by
    intro s
    cases s <;> rfl
  refine ⟨hempty, ?_⟩
  simp [postProgress, hempty, hok]

/-- Witness for C10: a failing `getUserAchievements` read yields the
success response with an empty `newAchievements`. -/
theorem achievement_check_swallows_errors_witness :
    checkAndAwardE (.error "db error")
        (.ok { total_points := 0, daily_streak := 0, completed_activities := 0
               high_score_count := 0, unique_games_played := 0, subjectCompleted := [] })
        (.ok []) (fun _ => .ok true) = .error "db error"
      ∧ (checkAndAwardAchievements (.error "db error")
            (.ok { total_points := 0, daily_streak := 0, completed_activities := 0
                   high_score_count := 0, unique_games_played := 0, subjectCompleted := [] })
            (.ok []) (fun _ => .ok true) = []
        ∧ (postProgress none none "math" 3 80 90 10 (.error "db error")
            (.ok { total_points := 0, daily_streak := 0, completed_activities := 0
                   high_score_count := 0, unique_games_played := 0, subjectCompleted := [] })
            (.ok []) (fun _ => .ok true)).1
          = (postProgress none none "math" 3 80 90 10 (.ok [])
              (.ok { total_points := 0, daily_streak := 0, completed_activities := 0
                     high_score_count := 0, unique_games_played := 0, subjectCompleted := [] })
              (.ok []) (fun _ => .ok true)).1) :=
  ⟨rfl,
   achievement_check_swallows_errors none none "math" 3 80 90 10 (.error "db error")
     (.ok { total_points := 0, daily_streak := 0, completed_activities := 0
            high_score_count := 0, unique_games_played := 0, subjectCompleted := [] })
     (.ok []) (fun _ => .ok true) "db error" rfl⟩

/-! ## Claim C7: idempotent achievement grants -/

/-- `Achievement.awardAchievement` against the `user_achievements` table:
`INSERT OR IGNORE` under the `UNIQUE(user_id, achievement_id)` constraint
(init.js:76-84) inserts the row only when the pair is absent; the resolved
Boolean is `this.changes > 0`. -/
def awardAchievement (grants : List (Nat × Nat)) (userId achievementId : Nat) :
    List (Nat × Nat) × Bool :=
  if (userId, achievementId) ∈ grants then (grants, false)
  else (grants ++ [(userId, achievementId)], true)

/-- Claim C7: starting from a table satisfying the uniqueness invariant
(at most one row for the pair), granting the same achievement twice leaves
exactly one row, the second grant is a no-op on the table, and one grant
preserves the invariant. -/
theorem grant_idempotent (gs : List (Nat × Nat)) (u a : Nat)
    (hinv : gs.count (u, a) ≤ 1) :
    ((awardAchievement (awardAchievement gs u a).1 u a).1.count (u, a) = 1)
      ∧ (awardAchievement (awardAchievement gs u a).1 u a).1 = (awardAchievement gs u a).1
      ∧ (awardAchievement gs u a).1.count (u, a) ≤ 1 := by
  by_cases hm : (u, a) ∈ gs
  · have hone : gs.count (u, a) = 1 :=
      le_antisymm hinv (List.count_pos_iff.mpr hm)
    simp [awardAchievement, hm, hone]
  · have hzero : gs.count (u, a) = 0 := List.count_eq_zero.mpr hm
    have hmem2 : (u, a) ∈ gs ++ [(u, a)] := by simp
    simp [awardAchievement, hm, hmem2, List.count_append, hzero]

/-- Witness for C7 on the empty table. -/
theorem grant_idempotent_witness :
    ([] : List (Nat × Nat)).count (1, 2) ≤ 1
      ∧ (((awardAchievement (awardAchievement [] 1 2).1 1 2).1.count (1, 2) = 1)
        ∧ (awardAchievement (awardAchievement [] 1 2).1 1 2).1 = (awardAchievement [] 1 2).1
        ∧ (awardAchievement [] 1 2).1.count (1, 2) ≤ 1) :=
  ⟨by decide, grant_idempotent [] 1 2 (by decide)⟩

/-! ## Client Offline Sync Agent (`APIClient` in the client bundle,
`OfflineManager` in offline.js) -/

/-- The client-side sync state: connectivity, the queued item ids, and the
sweeps currently in progress, each carrying the snapshot of the queue it
is replaying. A sweep stays in progress across other event-loop turns
because `syncOfflineData` suspends at each `await`. -/
structure SyncState where
  online : Bool
  queue : List Nat
  sweeps : List (List Nat)
deriving DecidableEq, Repr

/-- Events that drive the sync agent: connectivity changes, the three sweep
triggers — the window `online` listener, the 5-minute periodic timer in
`OfflineManager.setupPeriodicSync`, and an explicit app-level call — and
completion of the oldest running sweep. -/
inductive SyncEvent where
  | connRestored
  | connLost
  | onlineTrigger
  | timerTrigger
  | explicitTrigger
  | sweepDone
deriving DecidableEq, Repr

/-- Starting a sweep as `syncOfflineData` does: return early when offline
(`if (!navigator.onLine) return`), otherwise begin replaying a snapshot of
the queue. There is no check of `sweeps`: the code keeps no in-progress
flag. -/
def startSweepIfOnline (s : SyncState) : SyncState :=
  if s.online then { s with sweeps := s.sweeps ++ [s.queue] } else s

/-- One event-loop turn of the sync agent. All three triggers start a sweep
whenever the client is online. -/
def syncStep (s : SyncState) : SyncEvent → SyncState
  | .connRestored => { s with online := true }
  | .connLost => { s with online := false }
  | .onlineTrigger => startSweepIfOnline s
  | .timerTrigger => startSweepIfOnline s
  | .explicitTrigger => startSweepIfOnline s
  | .sweepDone => { s with sweeps := s.sweeps.tail }

/-- Run the sync agent through a list of events. -/
def syncRun (s : SyncState) (es : List SyncEvent) : SyncState :=
  es.foldl syncStep s

/-- Counterexample to claim C8: from an offline client with one queued
item, the reachable trace "connection restored; the `online` listener
fires; the periodic timer fires while that sweep is still awaiting I/O"
ends with two sweeps in progress over the same queue — the code has no
single-flight guard. -/
theorem concurrent_sweeps_reachable :
    (syncRun { online := false, queue := [42], sweeps := [] }
        [.connRestored, .onlineTrigger, .timerTrigger]).sweeps = [[42], [42]]
      ∧ 2 ≤ (syncRun { online := false, queue := [42], sweeps := [] }
          [.connRestored, .onlineTrigger, .timerTrigger]).sweeps.length := by
  constructor <;> rfl

/-- Claim C8 amended: a sweep trigger fired while the client is online
always starts a new sweep over the current queue, regardless of how many
sweeps are already in progress; sweeps are prevented only while offline,
so overlapping sweeps over the same queue are reachable. -/
theorem trigger_always_starts_sweep (s : SyncState) (honline : s.online = true) :
    (syncStep s .onlineTrigger).sweeps = s.sweeps ++ [s.queue]
      ∧ (syncStep s .timerTrigger).sweeps = s.sweeps ++ [s.queue]
      ∧ (syncStep s .explicitTrigger).sweeps = s.sweeps ++ [s.queue]
      ∧ ∀ (t : SyncState), t.online = false →
          (syncStep t .onlineTrigger).sweeps = t.sweeps := by
  refine ⟨?_, ?_, ?_, ?_⟩
  · simp [syncStep, startSweepIfOnline, honline]
  · simp [syncStep, startSweepIfOnline, honline]
  · simp [syncStep, startSweepIfOnline, honline]
  · intro t hoff; simp [syncStep, startSweepIfOnline, hoff]

/-- Witness for the amended C8: an online client with one running sweep
receives the timer trigger and ends with two. -/
theorem trigger_always_starts_sweep_witness :
    ({ online := true, queue := [7], sweeps := [[7]] } : SyncState).online = true
      ∧ ((syncStep { online := true, queue := [7], sweeps := [[7]] } .onlineTrigger).sweeps
            = [[7]] ++ [[7]]
        ∧ (syncStep { online := true, queue := [7], sweeps := [[7]] } .timerTrigger).sweeps
            = [[7]] ++ [[7]]
        ∧ (syncStep { online := true, queue := [7], sweeps := [[7]] } .explicitTrigger).sweeps
            = [[7]] ++ [[7]]
        ∧ ∀ (t : SyncState), t.online = false →
            (syncStep t .onlineTrigger).sweeps = t.sweeps) :=
  ⟨rfl, trigger_always_starts_sweep { online := true, queue := [7], sweeps := [[7]] } rfl⟩
